import Mathlib

/-!
Verification of the CSS selector builder in `src/objects-tasks.js`
(class `CssSelector`, lines 424-599, and the facade object
`cssSelectorBuilder`, lines 601-631).

The JavaScript class is shallowly embedded: each `CssSelector` object is a
value of the inductive type `CssSelector` below, holding the same fields as
the source (`parts`, `hasElement`, `hasId`, `hasPseudoElement`, `lastAdded`,
`combined`).  Each fragment-adding method is translated statement by
statement into a pure function returning the pair of (the error thrown, if
any) and the state of the object after the call; because in the source every
`throw` happens before any field is assigned, the state returned on the
error path is the receiver unchanged.

A second, heap-based model (addresses into a store) appears further down to
settle the claims about object identity and capture-by-reference, which a
purely structural embedding cannot express.
-/

set_option autoImplicit false

namespace CssBuilder

/-- The six fragment kinds.  In the source they are the strings
`element`, `id`, `class`, `attr`, `pseudoClass`, `pseudoElement`;
`class` being a Lean keyword, that kind is named `cls` here. -/
inductive Kind : Type where
  | element
  | id
  | cls
  | attr
  | pseudoClass
  | pseudoElement
  deriving DecidableEq, Repr

instance : Fintype Kind :=
  ⟨⟨{Kind.element, Kind.id, Kind.cls, Kind.attr, Kind.pseudoClass,
     Kind.pseudoElement}, by decide⟩, by intro x; cases x <;> decide⟩

/-- The `parts` field of a `CssSelector`: in the source a plain object
mapping a kind to the array of values pushed for that kind (a missing key
behaves as the empty array, see `addPart`, lines 574-579). -/
structure Parts : Type where
  element : List String
  id : List String
  cls : List String
  attr : List String
  pseudoClass : List String
  pseudoElement : List String
  deriving DecidableEq, Repr

/-- A freshly constructed object has `this.parts = {}` (line 426). -/
def Parts.empty : Parts := ⟨[], [], [], [], [], []⟩

/-- Read the array stored for a kind (`this.parts[type]`, missing = `[]`). -/
def Parts.get : Parts → Kind → List String
  | p, .element => p.element
  | p, .id => p.id
  | p, .cls => p.cls
  | p, .attr => p.attr
  | p, .pseudoClass => p.pseudoClass
  | p, .pseudoElement => p.pseudoElement

/-- `addPart(type, value)` (lines 574-579): push `value` onto
`this.parts[type]`, creating the array when absent. -/
def Parts.addPart : Parts → Kind → String → Parts
  | p, .element, v => { p with element := p.element ++ [v] }
  | p, .id, v => { p with id := p.id ++ [v] }
  | p, .cls, v => { p with cls := p.cls ++ [v] }
  | p, .attr, v => { p with attr := p.attr ++ [v] }
  | p, .pseudoClass, v => { p with pseudoClass := p.pseudoClass ++ [v] }
  | p, .pseudoElement, v => { p with pseudoElement := p.pseudoElement ++ [v] }

/-- A `CssSelector` object: the fields set up by the constructor
(lines 425-431).  `combined`, when present, holds the record
`{ selector1, combinator, selector2 }` (lines 508-516, 626-630); the two
selectors are nested values here (the heap model below captures the
by-reference variant). -/
inductive CssSelector : Type where
  | mk (parts : Parts) (hasElement hasId hasPseudoElement : Bool)
       (lastAdded : Option Kind)
       (combined : Option (CssSelector × String × CssSelector))

def CssSelector.parts : CssSelector → Parts
  | .mk p _ _ _ _ _ => p

def CssSelector.hasElement : CssSelector → Bool
  | .mk _ he _ _ _ _ => he

def CssSelector.hasId : CssSelector → Bool
  | .mk _ _ hi _ _ _ => hi

def CssSelector.hasPseudoElement : CssSelector → Bool
  | .mk _ _ _ hp _ _ => hp

def CssSelector.lastAdded : CssSelector → Option Kind
  | .mk _ _ _ _ la _ => la

def CssSelector.combined : CssSelector → Option (CssSelector × String × CssSelector)
  | .mk _ _ _ _ _ c => c

/-- The constructor `new CssSelector(value = null, type = null)`
(lines 425-446). -/
def CssSelector.new (value : Option String) (type : Option Kind) : CssSelector :=
  match value, type with
  | some v, some t =>
      .mk (Parts.empty.addPart t v)
          (t = Kind.element) (t = Kind.id) (t = Kind.pseudoElement)
          (some t) none
  | _, _ => .mk Parts.empty false false false none none

/-- The two distinct errors the source throws.  The source raises plain
`Error`s distinguished only by message; the spec calls them
`DuplicateFragmentError` and `OrderViolationError`. -/
inductive SelErr : Type where
  | duplicate
  | orderViolation
  deriving DecidableEq, Repr

/-- The exact message attached to each error in the source
(lines 451-453, 464-466, 498-500, 594-596). -/
def SelErr.message : SelErr → String
  | .duplicate =>
      "Element, id and pseudo-element should not occur more than one time inside the selector"
  | .orderViolation =>
      "Selector parts should be arranged in the following order: element, id, class, attribute, pseudo-class, pseudo-element"

/-- The `order` array of `validateOrder` (lines 582-589); it coincides with
the `outputOrder` array of `stringify` (lines 527-534). -/
def order : List Kind :=
  [.element, .id, .cls, .attr, .pseudoClass, .pseudoElement]

/-- `order.indexOf(x)` where `x` is `this.lastAdded`: JavaScript `indexOf`
returns `-1` when the argument is `null` (not in the array). -/
def kindIndexOf : Option Kind → Int
  | none => -1
  | some k => (order.indexOf k : Nat)

/-- `validateOrder(nextType)` (lines 581-598) throws exactly when
`currentIndex > nextIndex`; this function returns `true` exactly on the
throwing condition. -/
def validateOrder (lastAdded : Option Kind) (nextType : Kind) : Bool :=
  kindIndexOf lastAdded > kindIndexOf (some nextType)

namespace CssSelector

/-- Method `element(value)` (lines 448-459).  Returns the thrown error (if
any) paired with the state of `this` after the call; all mutations in the
source happen after both checks, so a throwing call leaves the state as it
was. -/
def element (s : CssSelector) (value : String) : Option SelErr × CssSelector :=
  if validateOrder s.lastAdded Kind.element then (some .orderViolation, s)
  else if s.hasElement then (some .duplicate, s)
  else (none,
    .mk (s.parts.addPart Kind.element value) true s.hasId s.hasPseudoElement
        (some Kind.element) s.combined)

/-- Method `id(value)` (lines 461-472). -/
def id (s : CssSelector) (value : String) : Option SelErr × CssSelector :=
  if validateOrder s.lastAdded Kind.id then (some .orderViolation, s)
  else if s.hasId then (some .duplicate, s)
  else (none,
    .mk (s.parts.addPart Kind.id value) s.hasElement true s.hasPseudoElement
        (some Kind.id) s.combined)

/-- Method `class(value)` (lines 474-479); `class` is a Lean keyword, hence
`cls`. -/
def cls (s : CssSelector) (value : String) : Option SelErr × CssSelector :=
  if validateOrder s.lastAdded Kind.cls then (some .orderViolation, s)
  else (none,
    .mk (s.parts.addPart Kind.cls value) s.hasElement s.hasId s.hasPseudoElement
        (some Kind.cls) s.combined)

/-- Method `attr(value)` (lines 481-486). -/
def attr (s : CssSelector) (value : String) : Option SelErr × CssSelector :=
  if validateOrder s.lastAdded Kind.attr then (some .orderViolation, s)
  else (none,
    .mk (s.parts.addPart Kind.attr value) s.hasElement s.hasId s.hasPseudoElement
        (some Kind.attr) s.combined)

/-- Method `pseudoClass(value)` (lines 488-493). -/
def pseudoClass (s : CssSelector) (value : String) : Option SelErr × CssSelector :=
  if validateOrder s.lastAdded Kind.pseudoClass then (some .orderViolation, s)
  else (none,
    .mk (s.parts.addPart Kind.pseudoClass value) s.hasElement s.hasId s.hasPseudoElement
        (some Kind.pseudoClass) s.combined)

/-- Method `pseudoElement(value)` (lines 495-506). -/
def pseudoElement (s : CssSelector) (value : String) : Option SelErr × CssSelector :=
  if validateOrder s.lastAdded Kind.pseudoElement then (some .orderViolation, s)
  else if s.hasPseudoElement then (some .duplicate, s)
  else (none,
    .mk (s.parts.addPart Kind.pseudoElement value) s.hasElement s.hasId true
        (some Kind.pseudoElement) s.combined)

end CssSelector

/-- Dispatch a fragment-adding call by kind: the six methods above. -/
def applyKind (k : Kind) (s : CssSelector) (v : String) : Option SelErr × CssSelector :=
  match k with
  | .element => s.element v
  | .id => s.id v
  | .cls => s.cls v
  | .attr => s.attr v
  | .pseudoClass => s.pseudoClass v
  | .pseudoElement => s.pseudoElement v

/-- The prefix chosen by the `switch` in `stringify` (lines 541-563). -/
def prefixOf : Kind → String
  | .element => ""
  | .id => "#"
  | .cls => "."
  | .attr => "["
  | .pseudoClass => ":"
  | .pseudoElement => "::"

/-- The suffix chosen by the same `switch`: `]` for `attr`, else empty. -/
def suffixOf : Kind → String
  | .attr => "]"
  | _ => ""

/-- One fragment as emitted by the inner `forEach`
(`result += prefix + value + suffix`, lines 565-567). -/
def decorate (k : Kind) (v : String) : String :=
  prefixOf k ++ v ++ suffixOf k

/-- The text contributed by one kind: all its stored values in insertion
order, each decorated, with no separator. -/
def sectionStr (p : Parts) (k : Kind) : String :=
  String.join ((p.get k).map (decorate k))

/-- The simple branch of `stringify` (lines 525-571): the outer
`forEach` over `outputOrder` accumulating into `result`. -/
def simpleStringify (p : Parts) : String :=
  order.foldl (fun result k => result ++ sectionStr p k) ""

/-- `stringify()` (lines 518-572): the combined branch joins the two sides
with single spaces around the combinator; the simple branch walks
`outputOrder`. -/
def CssSelector.stringify : CssSelector → String
  | .mk _ _ _ _ _ (some (s1, comb, s2)) =>
      s1.stringify ++ " " ++ comb ++ " " ++ s2.stringify
  | .mk p _ _ _ _ none => simpleStringify p

namespace cssSelectorBuilder

/-- Facade `cssSelectorBuilder.element(value)` (lines 602-604). -/
def element (value : String) : CssSelector :=
  CssSelector.new (some value) (some Kind.element)

/-- Facade `cssSelectorBuilder.id(value)` (lines 606-608). -/
def id (value : String) : CssSelector :=
  CssSelector.new (some value) (some Kind.id)

/-- Facade `cssSelectorBuilder.class(value)` (lines 610-612). -/
def cls (value : String) : CssSelector :=
  CssSelector.new (some value) (some Kind.cls)

/-- Facade `cssSelectorBuilder.attr(value)` (lines 614-616). -/
def attr (value : String) : CssSelector :=
  CssSelector.new (some value) (some Kind.attr)

/-- Facade `cssSelectorBuilder.pseudoClass(value)` (lines 618-620). -/
def pseudoClass (value : String) : CssSelector :=
  CssSelector.new (some value) (some Kind.pseudoClass)

/-- Facade `cssSelectorBuilder.pseudoElement(value)` (lines 622-624). -/
def pseudoElement (value : String) : CssSelector :=
  CssSelector.new (some value) (some Kind.pseudoElement)

/-- Facade `cssSelectorBuilder.combine(selector1, combinator, selector2)`
(lines 626-630): a fresh `new CssSelector()` whose `combined` field holds
the two sides and the combinator. -/
def combine (selector1 : CssSelector) (combinator : String)
    (selector2 : CssSelector) : CssSelector :=
  .mk Parts.empty false false false none (some (selector1, combinator, selector2))

end cssSelectorBuilder

/-- Modelled from the spec (section 4.1, serialization algorithm), for
comparison with the source-derived `simpleStringify`: for each kind in
canonical order append each value in insertion order wrapped in the kind's
fixed prefix and suffix — element bare, id `#v`, class `.v`, attribute
`[v]`, pseudo-class `:v`, pseudo-element `::v` — with no separator. -/
def specSimpleStringify (p : Parts) : String :=
  String.join (p.element.map (fun v => v)) ++
  String.join (p.id.map (fun v => "#" ++ v)) ++
  String.join (p.cls.map (fun v => "." ++ v)) ++
  String.join (p.attr.map (fun v => "[" ++ v ++ "]")) ++
  String.join (p.pseudoClass.map (fun v => ":" ++ v)) ++
  String.join (p.pseudoElement.map (fun v => "::" ++ v))

/-- A sequence of consecutive calls of the same fragment-adding method,
stopping at (and returning) the first thrown error, as a JavaScript chain
`s.class(v1).class(v2)...` would. -/
def applyMany (k : Kind) : CssSelector → List String → Option SelErr × CssSelector
  | s, [] => (none, s)
  | s, v :: vs =>
    match applyKind k s v with
    | (some e, s2) => (some e, s2)
    | (none, s2) => applyMany k s2 vs

/-- JavaScript allocation: each evaluation of a `new` expression yields an
object distinct from every object allocated before; modelled by a monotone
address counter. -/
structure AllocState : Type where
  next : Nat
  deriving DecidableEq, Repr

/-- One facade call `cssSelectorBuilder.<kind>(value)` (lines 602-624) run
against the allocator: `new CssSelector(value, type)` returns a fresh
address holding the seeded node. -/
def facadeCall (k : Kind) (v : String) (a : AllocState) :
    (Nat × CssSelector) × AllocState :=
  ((a.next, CssSelector.new (some v) (some k)), ⟨a.next + 1⟩)

/-- A `CssSelector` object as it sits on the JavaScript heap: the same
fields, but `combined` holds references (addresses) to its two side
objects, exactly as the source stores `selector1` and `selector2` without
copying (lines 626-630). -/
structure NodeObj : Type where
  parts : Parts
  hasElement : Bool
  hasId : Bool
  hasPseudoElement : Bool
  lastAdded : Option Kind
  combined : Option (Nat × String × Nat)
  deriving DecidableEq, Repr

/-- The heap: the object with address `a` lives at index `a`. -/
abbrev Store : Type := List NodeObj

/-- `new CssSelector(value, type)` on the heap: append a fresh object
(constructor, lines 425-446) and return its address. -/
def newAt (value : Option String) (type : Option Kind) (st : Store) : Nat × Store :=
  (st.length, st ++ [match value, type with
    | some v, some t =>
        ⟨Parts.empty.addPart t v, (t = Kind.element), (t = Kind.id),
          (t = Kind.pseudoElement), some t, none⟩
    | _, _ => ⟨Parts.empty, false, false, false, none, none⟩])

/-- `cssSelectorBuilder.combine(selector1, combinator, selector2)` on the
heap: allocate a fresh empty object whose `combined` field references the
two sides (lines 626-630). -/
def combineAt (l : Nat) (t : String) (r : Nat) (st : Store) : Nat × Store :=
  (st.length, st ++ [⟨Parts.empty, false, false, false, none, some (l, t, r)⟩])

/-- Method `class(value)` (lines 474-479) applied to the object at address
`a`, mutating it in place. -/
def clsAt (a : Nat) (v : String) (st : Store) : Option SelErr × Store :=
  match st[a]? with
  | none => (none, st)
  | some obj =>
    if validateOrder obj.lastAdded Kind.cls then (some .orderViolation, st)
    else (none, st.set a { obj with parts := obj.parts.addPart Kind.cls v,
                                    lastAdded := some Kind.cls })

/-- `stringify()` (lines 518-523) against the heap, with fuel bounding the
recursion through `combined` references. -/
def stringifyAt (st : Store) : Nat → Nat → Option String
  | 0, _ => none
  | fuel + 1, a =>
    match st[a]? with
    | none => none
    | some obj =>
      match obj.combined with
      | some (l, t, r) =>
        match stringifyAt st fuel l, stringifyAt st fuel r with
        | some s1, some s2 => some (s1 ++ " " ++ t ++ " " ++ s2)
        | _, _ => none
      | none => some (simpleStringify obj.parts)

/-- A five-object heap: `element('a')` at 0, `element('b')` at 1, the
combined node `0 > 1` at 2, `element('c')` at 3, and the combined node
`2 + 3` at 4 — that is, `combine(combine(element(a), >, element(b)), +,
element(c))`. -/
def comboStore : Store :=
  (combineAt 2 "+" 3
    (newAt (some "c") (some Kind.element)
      (combineAt 0 ">" 1
        (newAt (some "b") (some Kind.element)
          (newAt (some "a") (some Kind.element) []).2).2).2).2).2

/-- Modelled from the spec (glossary): the canonical rank of a fragment
kind, the fixed integer order index `element < id < class < attribute <
pseudoClass < pseudoElement`. -/
def canonicalRank : Kind → Nat
  | .element => 0
  | .id => 1
  | .cls => 2
  | .attr => 3
  | .pseudoClass => 4
  | .pseudoElement => 5

/-- The throwing condition of `validateOrder` coincides with the spec's
rank comparison: it throws exactly when some kind was added before and the
new kind ranks strictly below it. -/
theorem validateOrder_iff_rank (l : Option Kind) (k : Kind) :
    validateOrder l k = true ↔
      ∃ k0, l = some k0 ∧ canonicalRank k < canonicalRank k0 := by
  revert l k
  decide

/-- The error component of any fragment-adding method is the order error
exactly when `validateOrder` throws: in every method the order check runs
before the duplicate check. -/
theorem applyKind_orderViolation_iff (k : Kind) (s : CssSelector) (v : String) :
    (applyKind k s v).1 = some SelErr.orderViolation ↔
      validateOrder s.lastAdded k = true := by
  cases k <;>
    simp only [applyKind, CssSelector.element, CssSelector.id, CssSelector.cls,
      CssSelector.attr, CssSelector.pseudoClass, CssSelector.pseudoElement] <;>
    split <;>
    simp_all <;>
    split <;>
    simp

/-- C2: a fragment-adding call fails with `OrderViolationError` exactly when
the canonical rank of the new kind is strictly below the canonical rank of
the most recently added kind; in particular an equal-rank addition never
fails the order check and the first addition to a node never fails it. -/
theorem order_error_iff_rank_decreases (k : Kind) (s : CssSelector) (v : String) :
    (applyKind k s v).1 = some SelErr.orderViolation ↔
      ∃ last, s.lastAdded = some last ∧ canonicalRank k < canonicalRank last := by
  rw [applyKind_orderViolation_iff]
  exact validateOrder_iff_rank s.lastAdded k

/-- C1 counterexample: the node `element('div').id('main')` already holds an
element fragment, yet a second `element('span')` call on it throws the
order-violation error, not the duplicate error — the order check runs first
in the source (line 449 before line 450). -/
theorem second_element_after_id_is_order_error :
    (((cssSelectorBuilder.element "div").id "main").2.hasElement = true) ∧
    ((((cssSelectorBuilder.element "div").id "main").2.element "span").1
        = some SelErr.orderViolation) ∧
    SelErr.orderViolation ≠ SelErr.duplicate := by
  decide

/-- C1 amended: a second `element()`, `id()` or `pseudoElement()` call on a
node that already holds a fragment of that kind always fails, with the
duplicate error when the order check passes (the last-added kind does not
outrank the new kind) and with the order-violation error otherwise. -/
theorem second_singleton_add_fails (s : CssSelector) (v : String) :
    (s.hasElement = true →
      (s.element v).1 = some (if validateOrder s.lastAdded Kind.element
        then SelErr.orderViolation else SelErr.duplicate)) ∧
    (s.hasId = true →
      (s.id v).1 = some (if validateOrder s.lastAdded Kind.id
        then SelErr.orderViolation else SelErr.duplicate)) ∧
    (s.hasPseudoElement = true →
      (s.pseudoElement v).1 = some (if validateOrder s.lastAdded Kind.pseudoElement
        then SelErr.orderViolation else SelErr.duplicate)) := by
  refine ⟨fun h => ?_, fun h => ?_, fun h => ?_⟩ <;>
    simp only [CssSelector.element, CssSelector.id, CssSelector.pseudoElement] <;>
    split <;>
    simp_all

/-- Witness for `second_singleton_add_fails` at the concrete node
`element('a').id('b').pseudoElement('c')`, whose three singleton flags are
all set. -/
theorem second_singleton_add_fails_witness :
    (((((cssSelectorBuilder.element "a").id "b").2.pseudoElement "c").2.hasElement = true) ∧
     ((((cssSelectorBuilder.element "a").id "b").2.pseudoElement "c").2.hasId = true) ∧
     ((((cssSelectorBuilder.element "a").id "b").2.pseudoElement "c").2.hasPseudoElement = true)) ∧
    (((((cssSelectorBuilder.element "a").id "b").2.pseudoElement "c").2.element "x").1
        = some (if validateOrder ((((cssSelectorBuilder.element "a").id "b").2.pseudoElement "c").2).lastAdded Kind.element
            then SelErr.orderViolation else SelErr.duplicate)) ∧
    (((((cssSelectorBuilder.element "a").id "b").2.pseudoElement "c").2.id "x").1
        = some (if validateOrder ((((cssSelectorBuilder.element "a").id "b").2.pseudoElement "c").2).lastAdded Kind.id
            then SelErr.orderViolation else SelErr.duplicate)) ∧
    (((((cssSelectorBuilder.element "a").id "b").2.pseudoElement "c").2.pseudoElement "x").1
        = some (if validateOrder ((((cssSelectorBuilder.element "a").id "b").2.pseudoElement "c").2).lastAdded Kind.pseudoElement
            then SelErr.orderViolation else SelErr.duplicate)) :=
  ⟨⟨by decide, by decide, by decide⟩,
    (second_singleton_add_fails ((((cssSelectorBuilder.element "a").id "b").2.pseudoElement "c").2) "x").1 (by decide),
    (second_singleton_add_fails ((((cssSelectorBuilder.element "a").id "b").2.pseudoElement "c").2) "x").2.1 (by decide),
    (second_singleton_add_fails ((((cssSelectorBuilder.element "a").id "b").2.pseudoElement "c").2) "x").2.2 (by decide)⟩

/-- C5: every fragment-adding call that throws leaves the node exactly as it
was — in the source both checks precede every field assignment, so the state
after a failing call equals the state before it. -/
theorem failed_add_leaves_state_unchanged (k : Kind) (s : CssSelector) (v : String)
    (h : (applyKind k s v).1.isSome = true) :
    (applyKind k s v).2 = s := by
  cases k <;>
    simp only [applyKind, CssSelector.element, CssSelector.id, CssSelector.cls,
      CssSelector.attr, CssSelector.pseudoClass, CssSelector.pseudoElement] at h ⊢ <;>
    split at h <;>
    simp_all <;>
    split at h <;>
    simp_all

/-- Witness for `failed_add_leaves_state_unchanged`: calling `element('div')`
on `id('main')` fails, and the resulting state is the untouched node. -/
theorem failed_add_leaves_state_unchanged_witness :
    ((applyKind Kind.element (cssSelectorBuilder.id "main") "div").1.isSome = true) ∧
    (applyKind Kind.element (cssSelectorBuilder.id "main") "div").2
      = cssSelectorBuilder.id "main" :=
  ⟨by decide,
    failed_add_leaves_state_unchanged Kind.element (cssSelectorBuilder.id "main") "div"
      (by decide)⟩

theorem Parts.get_empty (j : Kind) : Parts.empty.get j = [] := by
  cases j <;> rfl

theorem Parts.get_addPart_same (p : Parts) (k : Kind) (v : String) :
    (p.addPart k v).get k = p.get k ++ [v] := by
  cases k <;> rfl

theorem Parts.get_addPart_ne (p : Parts) (k j : Kind) (v : String) (h : j ≠ k) :
    (p.addPart k v).get j = p.get j := by
  cases k <;> cases j <;> first | rfl | exact absurd rfl h

/-- The simple-branch serializer decomposes into the six per-kind sections
in canonical order. -/
theorem simpleStringify_sections (p : Parts) :
    simpleStringify p =
      sectionStr p .element ++ sectionStr p .id ++ sectionStr p .cls ++
      sectionStr p .attr ++ sectionStr p .pseudoClass ++ sectionStr p .pseudoElement := by
  simp [simpleStringify, order, String.empty_append]

theorem decorate_element_eq : decorate Kind.element = fun v => v := by
  funext v
  simp [decorate, prefixOf, suffixOf, String.empty_append, String.append_empty]

theorem decorate_id_eq : decorate Kind.id = fun v => "#" ++ v := by
  funext v
  simp [decorate, prefixOf, suffixOf, String.append_empty]

theorem decorate_cls_eq : decorate Kind.cls = fun v => "." ++ v := by
  funext v
  simp [decorate, prefixOf, suffixOf, String.append_empty]

theorem decorate_attr_eq : decorate Kind.attr = fun v => "[" ++ v ++ "]" := rfl

theorem decorate_pseudoClass_eq : decorate Kind.pseudoClass = fun v => ":" ++ v := by
  funext v
  simp [decorate, prefixOf, suffixOf, String.append_empty]

theorem decorate_pseudoElement_eq : decorate Kind.pseudoElement = fun v => "::" ++ v := by
  funext v
  simp [decorate, prefixOf, suffixOf, String.append_empty]

/-- The source serializer agrees with the spec's description of the
serialization algorithm on every simple node. -/
theorem simpleStringify_eq_spec (p : Parts) :
    simpleStringify p = specSimpleStringify p := by
  simp [simpleStringify, order, sectionStr, Parts.get, specSimpleStringify,
    String.empty_append, decorate_element_eq, decorate_id_eq, decorate_cls_eq,
    decorate_attr_eq, decorate_pseudoClass_eq, decorate_pseudoElement_eq]

/-- C3: `stringify()` on any simple node returns, for the six kinds in the
fixed order element, id, class, attr, pseudoClass, pseudoElement, each
stored value in insertion order decorated with the kind's prefix/suffix
(bare, `#v`, `.v`, `[v]`, `:v`, `::v`), concatenated without separator. -/
theorem stringify_simple_matches_spec (p : Parts) (he hi hp : Bool) (la : Option Kind) :
    (CssSelector.mk p he hi hp la none).stringify = specSimpleStringify p := by
  rw [CssSelector.stringify, simpleStringify_eq_spec]

/-- C4: for any two nodes and any of the four accepted combinator tokens,
the combined node stringifies to the left string, a space, the token, a
space, the right string — whatever the nesting of the two sides. -/
theorem combine_stringify_spaced (a b : CssSelector) (t : String)
    (_h : t = " " ∨ t = "+" ∨ t = "~" ∨ t = ">") :
    (cssSelectorBuilder.combine a t b).stringify
      = a.stringify ++ " " ++ t ++ " " ++ b.stringify := rfl

/-- Witness for `combine_stringify_spaced` with `+` between `element('div')`
and `element('p')`. -/
theorem combine_stringify_spaced_witness :
    (("+" : String) = " " ∨ ("+" : String) = "+" ∨ ("+" : String) = "~" ∨
      ("+" : String) = ">") ∧
    (cssSelectorBuilder.combine (cssSelectorBuilder.element "div") "+"
        (cssSelectorBuilder.element "p")).stringify
      = (cssSelectorBuilder.element "div").stringify ++ " " ++ "+" ++ " " ++
        (cssSelectorBuilder.element "p").stringify :=
  ⟨by decide,
    combine_stringify_spaced (cssSelectorBuilder.element "div")
      (cssSelectorBuilder.element "p") "+" (by decide)⟩

/-- C9: `combine` validates nothing — it is total, so it never raises any
error for any token, and `stringify` emits the supplied token verbatim
between single spaces whatever the token is (accepted or not). -/
theorem combine_accepts_any_token (a b : CssSelector) (t : String) :
    (cssSelectorBuilder.combine a t b).stringify
      = a.stringify ++ " " ++ t ++ " " ++ b.stringify := rfl

/-- C8: the two concrete scenarios of the spec hold: every chained call
succeeds and the final strings are exactly as stated. -/
theorem concrete_scenarios_hold :
    ((cssSelectorBuilder.element "div").id "main").1 = none ∧
    ((cssSelectorBuilder.element "table").id "data").1 = none ∧
    (cssSelectorBuilder.combine
        ((cssSelectorBuilder.element "div").id "main").2 "+"
        ((cssSelectorBuilder.element "table").id "data").2).stringify
      = "div#main + table#data" ∧
    ((cssSelectorBuilder.id "main").cls "container").1 = none ∧
    (((cssSelectorBuilder.id "main").cls "container").2.cls "editable").1 = none ∧
    (((cssSelectorBuilder.id "main").cls "container").2.cls "editable").2.stringify
      = "#main.container.editable" := by
  decide

/-- For the three repeatable kinds a call that passes the order check
succeeds and performs exactly the source's mutations. -/
theorem applyKind_repeatable (k : Kind)
    (hk : k = Kind.cls ∨ k = Kind.attr ∨ k = Kind.pseudoClass)
    (s : CssSelector) (v : String) (h : validateOrder s.lastAdded k = false) :
    applyKind k s v =
      (none, .mk (s.parts.addPart k v) s.hasElement s.hasId s.hasPseudoElement
        (some k) s.combined) := by
  rcases hk with rfl | rfl | rfl <;>
    simp [applyKind, CssSelector.cls, CssSelector.attr, CssSelector.pseudoClass, h]

/-- A node whose `combined` field is empty stringifies through the simple
branch. -/
theorem stringify_of_combined_none (s : CssSelector) (h : s.combined = none) :
    s.stringify = specSimpleStringify s.parts := by
  cases s with
  | mk p he hi hp la c =>
    cases c with
    | none => rw [CssSelector.stringify, simpleStringify_eq_spec]; rfl
    | some x => simp [CssSelector.combined] at h

/-- Iterating one repeatable method: every step succeeds, the values land in
that kind's list in order, everything else is untouched. -/
theorem applyMany_repeatable (k : Kind)
    (hk : k = Kind.cls ∨ k = Kind.attr ∨ k = Kind.pseudoClass)
    (vs : List String) (s : CssSelector) (h : validateOrder s.lastAdded k = false) :
    (applyMany k s vs).1 = none ∧
    ((applyMany k s vs).2).parts.get k = s.parts.get k ++ vs ∧
    (∀ j, j ≠ k → ((applyMany k s vs).2).parts.get j = s.parts.get j) ∧
    ((applyMany k s vs).2).combined = s.combined := by
  induction vs generalizing s with
  | nil => simp [applyMany]
  | cons v vs ih =>
    have hstep := applyKind_repeatable k hk s v h
    have hvo2 : validateOrder (some k) k = false := by
      rcases hk with rfl | rfl | rfl <;> decide
    obtain ⟨ih1, ih2, ih3, ih4⟩ :=
      ih (.mk (s.parts.addPart k v) s.hasElement s.hasId s.hasPseudoElement
        (some k) s.combined) (by simpa [CssSelector.lastAdded] using hvo2)
    rw [applyMany, hstep]
    refine ⟨ih1, ?_, fun j hj => ?_, ih4⟩
    · rw [ih2]
      simp [CssSelector.parts, Parts.get_addPart_same]
    · rw [ih3 j hj]
      simp [CssSelector.parts, Parts.get_addPart_ne _ _ _ _ hj]

/-- C6 counterexample: the very first `class()` call on the node
`pseudoElement('hover')` throws the order-violation error, so consecutive
`class` calls do not succeed on every node. -/
theorem class_on_pseudoElement_node_fails :
    (applyMany Kind.cls (cssSelectorBuilder.pseudoElement "hover") ["first"]).1
      = some SelErr.orderViolation := by
  decide

/-- C6 amended: on any node whose last-added kind does not outrank the
repeatable kind being added (class, attr or pseudoClass — e.g. any freshly
seeded node of rank at most that kind), n consecutive calls of that method
all succeed, the n values are appended to that kind's list in call order and
every other kind is untouched; on a non-combined node the values therefore
appear in the `stringify()` output in insertion order, each decorated. -/
theorem repeatable_kinds_append_in_order (k : Kind) (s : CssSelector) (vs : List String)
    (hk : k = Kind.cls ∨ k = Kind.attr ∨ k = Kind.pseudoClass)
    (hord : ∀ last, s.lastAdded = some last → canonicalRank last ≤ canonicalRank k) :
    (applyMany k s vs).1 = none ∧
    ((applyMany k s vs).2).parts.get k = s.parts.get k ++ vs ∧
    (∀ j, j ≠ k → ((applyMany k s vs).2).parts.get j = s.parts.get j) ∧
    (s.combined = none →
      ((applyMany k s vs).2).stringify
        = specSimpleStringify (((applyMany k s vs).2).parts)) := by
  have hvo : validateOrder s.lastAdded k = false := by
    cases hvo2 : validateOrder s.lastAdded k
    · rfl
    · obtain ⟨k0, hl, hr⟩ := (validateOrder_iff_rank _ _).mp hvo2
      have := hord k0 hl
      omega
  obtain ⟨h1, h2, h3, h4⟩ := applyMany_repeatable k hk vs s hvo
  refine ⟨h1, h2, h3, fun hc => ?_⟩
  exact stringify_of_combined_none _ (h4.trans hc)

/-- Witness for `repeatable_kinds_append_in_order`: two `class` calls on
`id('main')`. -/
theorem repeatable_kinds_append_in_order_witness :
    (Kind.cls = Kind.cls ∨ Kind.cls = Kind.attr ∨ Kind.cls = Kind.pseudoClass) ∧
    (∀ last, (cssSelectorBuilder.id "main").lastAdded = some last →
      canonicalRank last ≤ canonicalRank Kind.cls) ∧
    ((applyMany Kind.cls (cssSelectorBuilder.id "main") ["container", "editable"]).1 = none ∧
     ((applyMany Kind.cls (cssSelectorBuilder.id "main") ["container", "editable"]).2).parts.get Kind.cls
        = (cssSelectorBuilder.id "main").parts.get Kind.cls ++ ["container", "editable"] ∧
     (∀ j, j ≠ Kind.cls →
       ((applyMany Kind.cls (cssSelectorBuilder.id "main") ["container", "editable"]).2).parts.get j
          = (cssSelectorBuilder.id "main").parts.get j) ∧
     ((cssSelectorBuilder.id "main").combined = none →
       ((applyMany Kind.cls (cssSelectorBuilder.id "main") ["container", "editable"]).2).stringify
          = specSimpleStringify (((applyMany Kind.cls (cssSelectorBuilder.id "main") ["container", "editable"]).2).parts))) :=
  ⟨by decide, by decide,
    repeatable_kinds_append_in_order Kind.cls (cssSelectorBuilder.id "main")
      ["container", "editable"] (by decide) (by decide)⟩

/-- C7: each facade entry point seeds a brand-new simple node holding
exactly one fragment — the requested kind with the given value — with the
last-added tracker set to that kind and exactly the matching singleton flag
set; and two consecutive facade calls never return the same object. -/
theorem facade_seeds_single_fragment_fresh (k1 k2 : Kind) (v1 v2 : String) (a : AllocState) :
    ((facadeCall k1 v1 a).1.2).parts.get k1 = [v1] ∧
    (∀ j, j ≠ k1 → ((facadeCall k1 v1 a).1.2).parts.get j = []) ∧
    ((facadeCall k1 v1 a).1.2).lastAdded = some k1 ∧
    ((facadeCall k1 v1 a).1.2).combined = none ∧
    (((facadeCall k1 v1 a).1.2).hasElement = true ↔ k1 = Kind.element) ∧
    (((facadeCall k1 v1 a).1.2).hasId = true ↔ k1 = Kind.id) ∧
    (((facadeCall k1 v1 a).1.2).hasPseudoElement = true ↔ k1 = Kind.pseudoElement) ∧
    (facadeCall k1 v1 a).1.1 ≠ (facadeCall k2 v2 (facadeCall k1 v1 a).2).1.1 := by
  refine ⟨?_, fun j hj => ?_, rfl, rfl, ?_, ?_, ?_, ?_⟩
  · simp [facadeCall, CssSelector.new, CssSelector.parts, Parts.get_addPart_same,
      Parts.get_empty]
  · simp [facadeCall, CssSelector.new, CssSelector.parts,
      Parts.get_addPart_ne _ _ _ _ hj, Parts.get_empty]
  · simp [facadeCall, CssSelector.new, CssSelector.hasElement]
  · simp [facadeCall, CssSelector.new, CssSelector.hasId]
  · simp [facadeCall, CssSelector.new, CssSelector.hasPseudoElement]
  · simp [facadeCall]

theorem string_join_append (l1 l2 : List String) :
    String.join (l1 ++ l2) = String.join l1 ++ String.join l2 := by
  apply String.ext
  simp [String.data_join, String.data_append]

theorem string_join_singleton (x : String) : String.join [x] = x := by
  simp [String.join, String.empty_append]

theorem sectionStr_addPart_same (p : Parts) (k : Kind) (v : String) :
    sectionStr (p.addPart k v) k = sectionStr p k ++ decorate k v := by
  rw [sectionStr, sectionStr, Parts.get_addPart_same, List.map_append,
    string_join_append]
  simp [string_join_singleton]

theorem sectionStr_addPart_ne (p : Parts) (k j : Kind) (v : String) (h : j ≠ k) :
    sectionStr (p.addPart k v) j = sectionStr p j := by
  rw [sectionStr, sectionStr, Parts.get_addPart_ne _ _ _ _ h]

/-- Appending one class fragment lengthens the serialized simple node by
exactly the dot plus the value. -/
theorem simpleStringify_addPart_cls_length (p : Parts) (v : String) :
    (simpleStringify (p.addPart Kind.cls v)).length
      = (simpleStringify p).length + (1 + v.length) := by
  have hdot : ("." : String).length = 1 := rfl
  rw [simpleStringify_sections, simpleStringify_sections, sectionStr_addPart_same,
    sectionStr_addPart_ne _ _ _ _ (by decide : Kind.element ≠ Kind.cls),
    sectionStr_addPart_ne _ _ _ _ (by decide : Kind.id ≠ Kind.cls),
    sectionStr_addPart_ne _ _ _ _ (by decide : Kind.attr ≠ Kind.cls),
    sectionStr_addPart_ne _ _ _ _ (by decide : Kind.pseudoClass ≠ Kind.cls),
    sectionStr_addPart_ne _ _ _ _ (by decide : Kind.pseudoElement ≠ Kind.cls)]
  simp [String.length_append, decorate, prefixOf, suffixOf, String.append_empty, hdot]
  omega

/-- Unfolding lemma for one step of heap serialization. -/
theorem stringifyAt_succ (st : Store) (fuel a : Nat) :
    stringifyAt st (fuel + 1) a =
      match st[a]? with
      | none => none
      | some obj =>
        match obj.combined with
        | some (l, t, r) =>
          match stringifyAt st fuel l, stringifyAt st fuel r with
          | some s1, some s2 => some (s1 ++ " " ++ t ++ " " ++ s2)
          | _, _ => none
        | none => some (simpleStringify obj.parts) := rfl

/-- C10 counterexample: in the heap `comboStore`, the side node at address 2
of the combined node at address 4 is itself a combined node; a `class('z')`
call on it succeeds, yet the outer `stringify()` result is unchanged,
because the simple-fragment storage of a combined node is ignored by
`stringify`. -/
theorem mutating_combined_side_leaves_output_unchanged :
    (clsAt 2 "z" comboStore).1 = none ∧
    stringifyAt (clsAt 2 "z" comboStore).2 3 4 = stringifyAt comboStore 3 4 ∧
    stringifyAt comboStore 3 4 = some "a > b + c" := by
  decide

/-- C10 amended: a combined node captures its sides by reference, so its
`stringify()` is computed from the state of the sides at call time: with
both sides simple, serializing before the mutation shows the old left parts
and serializing after a successful `class` addition to the left side shows
the new ones — a changed output; (by the counterexample above, a successful
addition to a side that is itself a combined node does not change the
output, since `stringify` ignores the fragment storage of combined
nodes). -/
theorem combine_captures_sides_by_reference
    (st : Store) (a b : Nat) (t v : String) (objA objB : NodeObj) (fuel : Nat)
    (ha : st[a]? = some objA) (hb : st[b]? = some objB)
    (hA : objA.combined = none) (hB : objB.combined = none)
    (hord : validateOrder objA.lastAdded Kind.cls = false)
    (hab : a ≠ b) :
    (clsAt a v (combineAt a t b st).2).1 = none ∧
    stringifyAt (combineAt a t b st).2 (fuel + 1 + 1) (combineAt a t b st).1
      = some (simpleStringify objA.parts ++ " " ++ t ++ " " ++
          simpleStringify objB.parts) ∧
    stringifyAt (clsAt a v (combineAt a t b st).2).2 (fuel + 1 + 1) (combineAt a t b st).1
      = some (simpleStringify (objA.parts.addPart Kind.cls v) ++ " " ++ t ++ " " ++
          simpleStringify objB.parts) ∧
    stringifyAt (clsAt a v (combineAt a t b st).2).2 (fuel + 1 + 1) (combineAt a t b st).1
      ≠ stringifyAt (combineAt a t b st).2 (fuel + 1 + 1) (combineAt a t b st).1 := by
  have haLt : a < st.length := (List.getElem?_eq_some.mp ha).1
  have hbLt : b < st.length := (List.getElem?_eq_some.mp hb).1
  have hac : a ≠ st.length := Nat.ne_of_lt haLt
  have h1a : ((combineAt a t b st).2)[a]? = some objA := by
    simp [combineAt, List.getElem?_append, haLt, ha]
  have h1b : ((combineAt a t b st).2)[b]? = some objB := by
    simp [combineAt, List.getElem?_append, hbLt, hb]
  have h1c : ((combineAt a t b st).2)[st.length]? =
      some ⟨Parts.empty, false, false, false, none, some (a, t, b)⟩ :=
    List.getElem?_concat_length st _
  have hcls1 : (clsAt a v (combineAt a t b st).2).1 = none := by
    simp [clsAt, h1a, hord]
  have hcls2 : (clsAt a v (combineAt a t b st).2).2 =
      ((combineAt a t b st).2).set a
        { objA with parts := objA.parts.addPart Kind.cls v,
                    lastAdded := some Kind.cls } := by
    simp [clsAt, h1a, hord]
  have haLt2 : a < ((combineAt a t b st).2).length := by
    simp [combineAt]
    omega
  have h2c : (((combineAt a t b st).2).set a
      { objA with parts := objA.parts.addPart Kind.cls v,
                  lastAdded := some Kind.cls })[st.length]? =
      some ⟨Parts.empty, false, false, false, none, some (a, t, b)⟩ := by
    rw [List.getElem?_set_ne hac]
    exact h1c
  have h2a : (((combineAt a t b st).2).set a
      { objA with parts := objA.parts.addPart Kind.cls v,
                  lastAdded := some Kind.cls })[a]? =
      some { objA with parts := objA.parts.addPart Kind.cls v,
                       lastAdded := some Kind.cls } := by
    simp [List.getElem?_set, haLt2]
  have h2b : (((combineAt a t b st).2).set a
      { objA with parts := objA.parts.addPart Kind.cls v,
                  lastAdded := some Kind.cls })[b]? = some objB := by
    rw [List.getElem?_set_ne hab]
    exact h1b
  have hsimple : ∀ (stx : Store) (x : Nat) (obj : NodeObj), stx[x]? = some obj →
      obj.combined = none →
      stringifyAt stx (fuel + 1) x = some (simpleStringify obj.parts) := by
    intro stx x obj hx hc
    rw [stringifyAt_succ, hx]
    simp [hc]
  have hfst : (combineAt a t b st).1 = st.length := rfl
  have S1 : stringifyAt (combineAt a t b st).2 (fuel + 1 + 1) (combineAt a t b st).1
      = some (simpleStringify objA.parts ++ " " ++ t ++ " " ++
          simpleStringify objB.parts) := by
    rw [hfst, stringifyAt_succ, h1c]
    simp [hsimple _ _ _ h1a hA, hsimple _ _ _ h1b hB]
  have S2 : stringifyAt (clsAt a v (combineAt a t b st).2).2 (fuel + 1 + 1)
        (combineAt a t b st).1
      = some (simpleStringify (objA.parts.addPart Kind.cls v) ++ " " ++ t ++ " " ++
          simpleStringify objB.parts) := by
    rw [hfst, hcls2, stringifyAt_succ, h2c]
    simp [hsimple _ _ _ h2a hA, hsimple _ _ _ h2b hB]
  refine ⟨hcls1, S1, S2, ?_⟩
  rw [S1, S2]
  intro heq
  simp only [Option.some.injEq] at heq
  have hlen := congrArg String.length heq
  simp only [String.length_append, simpleStringify_addPart_cls_length] at hlen
  omega

/-- Witness for `combine_captures_sides_by_reference`: a two-object heap
holding `element('p')` and `element('q')`, combined with `+`, then
`class('w')` added to the left side. -/
theorem combine_captures_sides_by_reference_witness :
    (([⟨⟨["p"], [], [], [], [], []⟩, true, false, false, some Kind.element, none⟩,
       ⟨⟨["q"], [], [], [], [], []⟩, true, false, false, some Kind.element, none⟩] :
        Store)[0]? = some ⟨⟨["p"], [], [], [], [], []⟩, true, false, false,
          some Kind.element, none⟩) ∧
    (([⟨⟨["p"], [], [], [], [], []⟩, true, false, false, some Kind.element, none⟩,
       ⟨⟨["q"], [], [], [], [], []⟩, true, false, false, some Kind.element, none⟩] :
        Store)[1]? = some ⟨⟨["q"], [], [], [], [], []⟩, true, false, false,
          some Kind.element, none⟩) ∧
    (NodeObj.combined ⟨⟨["p"], [], [], [], [], []⟩, true, false, false,
        some Kind.element, none⟩ = none) ∧
    (NodeObj.combined ⟨⟨["q"], [], [], [], [], []⟩, true, false, false,
        some Kind.element, none⟩ = none) ∧
    validateOrder (some Kind.element) Kind.cls = false ∧
    (0 : Nat) ≠ 1 ∧
    ((clsAt 0 "w" (combineAt 0 "+" 1
        [⟨⟨["p"], [], [], [], [], []⟩, true, false, false, some Kind.element, none⟩,
         ⟨⟨["q"], [], [], [], [], []⟩, true, false, false, some Kind.element, none⟩]).2).1
        = none ∧
     stringifyAt (combineAt 0 "+" 1
        [⟨⟨["p"], [], [], [], [], []⟩, true, false, false, some Kind.element, none⟩,
         ⟨⟨["q"], [], [], [], [], []⟩, true, false, false, some Kind.element, none⟩]).2
        (0 + 1 + 1)
        (combineAt 0 "+" 1
          [⟨⟨["p"], [], [], [], [], []⟩, true, false, false, some Kind.element, none⟩,
           ⟨⟨["q"], [], [], [], [], []⟩, true, false, false, some Kind.element, none⟩]).1
        = some (simpleStringify ⟨["p"], [], [], [], [], []⟩ ++ " " ++ "+" ++ " " ++
            simpleStringify ⟨["q"], [], [], [], [], []⟩) ∧
     stringifyAt (clsAt 0 "w" (combineAt 0 "+" 1
          [⟨⟨["p"], [], [], [], [], []⟩, true, false, false, some Kind.element, none⟩,
           ⟨⟨["q"], [], [], [], [], []⟩, true, false, false, some Kind.element, none⟩]).2).2
        (0 + 1 + 1)
        (combineAt 0 "+" 1
          [⟨⟨["p"], [], [], [], [], []⟩, true, false, false, some Kind.element, none⟩,
           ⟨⟨["q"], [], [], [], [], []⟩, true, false, false, some Kind.element, none⟩]).1
        = some (simpleStringify (Parts.addPart ⟨["p"], [], [], [], [], []⟩ Kind.cls "w")
            ++ " " ++ "+" ++ " " ++ simpleStringify ⟨["q"], [], [], [], [], []⟩) ∧
     stringifyAt (clsAt 0 "w" (combineAt 0 "+" 1
          [⟨⟨["p"], [], [], [], [], []⟩, true, false, false, some Kind.element, none⟩,
           ⟨⟨["q"], [], [], [], [], []⟩, true, false, false, some Kind.element, none⟩]).2).2
        (0 + 1 + 1)
        (combineAt 0 "+" 1
          [⟨⟨["p"], [], [], [], [], []⟩, true, false, false, some Kind.element, none⟩,
           ⟨⟨["q"], [], [], [], [], []⟩, true, false, false, some Kind.element, none⟩]).1
        ≠ stringifyAt (combineAt 0 "+" 1
          [⟨⟨["p"], [], [], [], [], []⟩, true, false, false, some Kind.element, none⟩,
           ⟨⟨["q"], [], [], [], [], []⟩, true, false, false, some Kind.element, none⟩]).2
        (0 + 1 + 1)
        (combineAt 0 "+" 1
          [⟨⟨["p"], [], [], [], [], []⟩, true, false, false, some Kind.element, none⟩,
           ⟨⟨["q"], [], [], [], [], []⟩, true, false, false, some Kind.element, none⟩]).1) :=
  ⟨by decide, by decide, rfl, rfl, by decide, by decide,
    combine_captures_sides_by_reference
      [⟨⟨["p"], [], [], [], [], []⟩, true, false, false, some Kind.element, none⟩,
       ⟨⟨["q"], [], [], [], [], []⟩, true, false, false, some Kind.element, none⟩]
      0 1 "+" "w"
      ⟨⟨["p"], [], [], [], [], []⟩, true, false, false, some Kind.element, none⟩
      ⟨⟨["q"], [], [], [], [], []⟩, true, false, false, some Kind.element, none⟩
      0 (by decide) (by decide) rfl rfl (by decide) (by decide)⟩

end CssBuilder
